import Mathlib

/-!
Verification of the evidence-gated answering pipeline in
`netlify/functions/ask.mjs` (DoseGuide AI).

Strings are modelled as `List Char` (one entry per UTF-16 code unit; all
string literals appearing in the pipeline are BMP, where code units and
code points coincide).  The two oracle calls (OpenAI Responses API) are
modelled as external outcomes passed to the handler: a call either throws
(transport error / timeout / non-ok status) or returns text whose
`safeJsonParse` result is either `none` (malformed JSON) or a parsed,
schema-shaped object.
-/

/-- JS strings, one `Char` per code unit. -/
abbrev JsString := List Char

/-- Embed a Lean string literal as a `JsString`. -/
def jsStr (s : String) : JsString := s.data

/-- JS `a || b` on strings: the empty string is falsy. -/
def jsOrStr (a b : JsString) : JsString := if a = [] then b else a

/-- JS `a || b` where `a` may be `undefined` (modelled `none`) and is
otherwise a string. -/
def jsOrOpt (a : Option JsString) (b : JsString) : JsString :=
  match a with
  | none => b
  | some s => jsOrStr s b

/-- The character class of the JS regex `\s` (also the set trimmed by
`String.prototype.trim`). -/
def isWs (c : Char) : Bool :=
  c.toNat = 9 || c.toNat = 10 || c.toNat = 11 || c.toNat = 12 || c.toNat = 13 ||
  c.toNat = 32 || c.toNat = 0xa0 || c.toNat = 0x1680 ||
  (0x2000 ≤ c.toNat && c.toNat ≤ 0x200a) ||
  c.toNat = 0x2028 || c.toNat = 0x2029 || c.toNat = 0x202f ||
  c.toNat = 0x205f || c.toNat = 0x3000 || c.toNat = 0xfeff

/-- Worker for `collapseWs`: the flag records whether the previous input
character belonged to a whitespace run (whose single replacement space has
already been emitted). -/
def collapseGo : Bool → List Char → List Char
  | _, [] => []
  | inRun, c :: cs =>
    if isWs c then
      if inRun then collapseGo true cs else ' ' :: collapseGo true cs
    else c :: collapseGo false cs

/-- Model of `s.replace(/\s+/g, " ")`: every maximal whitespace run becomes a
single space. -/
def collapseWs (l : List Char) : List Char := collapseGo false l

/-- Remove a trailing whitespace run. -/
def trimEnd : List Char → List Char
  | [] => []
  | c :: cs =>
    let r := trimEnd cs
    if r = [] then (if isWs c then [] else [c]) else c :: r

/-- JS `s.trim()`: strip leading and trailing whitespace. -/
def trimJs (l : JsString) : JsString := trimEnd (l.dropWhile isWs)

/-- Function `normalizeSpace` from ask.mjs:
`String(s ?? "").replace(/\s+/g, " ").trim()`. -/
def normalizeSpace (s : JsString) : JsString := trimJs (collapseWs s)

/-- Function `clampStr` from ask.mjs:
`t.length <= max ? t : t.slice(0, max) + "…"`. -/
def clampStr (s : JsString) (max : Nat) : JsString :=
  if s.length ≤ max then s else s.take max ++ ['…']

/-- JS `String.prototype.toLowerCase`, restricted to the simple (ASCII)
case mapping used by every comparison in the pipeline. -/
def jsToLower (l : JsString) : JsString := l.map Char.toLower

/-- One extracted quote (`evidence` items of the evidence schema /
`verbatim` items of the answer schema). -/
structure EvidenceQuote where
  quote : JsString
  section_hint : JsString
  page_hint : JsString
  deriving DecidableEq, Repr

/-- The `protocol_evidence` schema shape: raw extractor output. -/
structure EvidenceSet where
  verdict : JsString
  evidence : List EvidenceQuote
  note : JsString
  deriving DecidableEq, Repr

/-- The `protocol_answer` schema shape (also the shape of `minimalNotFound`
and of the final `result` object). -/
structure AnswerObj where
  verdict : JsString
  short_answer : JsString
  verbatim : List EvidenceQuote
  source_hint : JsString
  warnings : List JsString
  deriving DecidableEq, Repr

/-- Function `minimalNotFound(lang)` from ask.mjs. -/
def minimalNotFound (lang : JsString) : AnswerObj :=
  if lang = jsStr "en" then
    { verdict := jsStr "NOT_FOUND"
      short_answer := jsStr "Not found in this drug protocol/PDF."
      verbatim := []
      source_hint := jsStr ""
      warnings := [jsStr "Please review the protocol source or upload a newer version."] }
  else
    { verdict := jsStr "NOT_FOUND"
      short_answer := jsStr "غير موجود في بروتوكول/ملف PDF هذا الدواء."
      verbatim := []
      source_hint := jsStr ""
      warnings := [jsStr "راجع البروتوكول/النسخة المحدثة أو ارفع نسخة أحدث."] }

/-- The per-quote normalization map inside `enforceEvidenceSanity`. -/
def cleanQuote (e : EvidenceQuote) : EvidenceQuote :=
  { quote := normalizeSpace e.quote
    section_hint := normalizeSpace e.section_hint
    page_hint := normalizeSpace e.page_hint }

/-- The de-duplication loop inside `enforceEvidenceSanity` (`seen` set of
lower-cased quote keys, first occurrence kept). -/
def dedupQuotes : List EvidenceQuote → List JsString → List EvidenceQuote
  | [], _ => []
  | e :: es, seen =>
    if jsToLower e.quote ∈ seen then dedupQuotes es seen
    else e :: dedupQuotes es (jsToLower e.quote :: seen)

/-- Function `enforceEvidenceSanity` from ask.mjs.  The argument is the
`safeJsonParse` result (`none` = JS `null`/parse failure; `obj || {}` then
yields an object whose fields are all `undefined`, modelled by empty
values). -/
def enforceEvidenceSanity (evidenceObj : Option EvidenceSet) : EvidenceSet :=
  let obj := evidenceObj.getD { verdict := [], evidence := [], note := [] }
  if obj.verdict = jsStr "FOUND" then
    let cleaned := (obj.evidence.map cleanQuote).filter (fun e => 8 ≤ e.quote.length)
    if cleaned = [] then
      { verdict := jsStr "NOT_FOUND", evidence := [], note := jsStr "No usable evidence extracted." }
    else
      { verdict := jsStr "FOUND"
        evidence := (dedupQuotes cleaned []).take 6
        note := clampStr (jsOrStr obj.note []) 240 }
  else
    { verdict := jsStr "NOT_FOUND", evidence := [], note := clampStr (jsOrStr obj.note []) 240 }

/-- Function `inferLangFromUserSetting` from ask.mjs (`langSetting` may be
absent). -/
def inferLangFromUserSetting (langSetting : Option JsString) (question : JsString) : JsString :=
  let l := jsToLower (jsOrOpt langSetting (jsStr "auto"))
  if l ≠ jsStr "auto" then l
  else if question.any (fun c => 0x600 ≤ c.toNat && c.toNat ≤ 0x6FF) then jsStr "ar"
  else jsStr "en"

/-- The answer-verification step of the handler (lines after the second
oracle call): `safeJsonParse` failure or a FOUND answer with no verbatim
quote collapses to `minimalNotFound`. -/
def verifyAnswer (parsed2 : Option AnswerObj) (lang : JsString) : AnswerObj :=
  match parsed2 with
  | none => minimalNotFound lang
  | some p => if p.verdict = jsStr "FOUND" ∧ p.verbatim = [] then minimalNotFound lang else p

/-- The degradation warning appended when the composer call throws. -/
def composerFailedWarning (lang : JsString) : JsString :=
  if lang = jsStr "en" then jsStr "Answer composer failed; returned NOT_FOUND for safety."
  else jsStr "فشل توليد الإجابة؛ تم إرجاع NOT_FOUND للأمان."

/-- Model of `result.verbatim[0]?.quote || ""`. -/
def firstQuoteText : List EvidenceQuote → JsString
  | [] => []
  | e :: _ => jsOrStr e.quote []

/-- One numbered entry of the verbatim-mode reply (the `.map` callback). -/
def fmtQuote (i : Nat) (e : EvidenceQuote) : JsString :=
  (Nat.repr (i + 1)).data ++ jsStr ") " ++ e.quote
    ++ (if e.section_hint = [] then [] else jsStr "\n   [" ++ e.section_hint ++ jsStr "]")
    ++ (if e.page_hint = [] then [] else jsStr " " ++ e.page_hint)

/-- The `reply` ternary of the handler (mode renderer). -/
def renderReply (mode lang : JsString) (result : AnswerObj) : JsString :=
  if mode = jsStr "verbatim" then
    if result.verbatim ≠ [] then
      List.intercalate (jsStr "\n\n") (result.verbatim.mapIdx fmtQuote)
    else (minimalNotFound lang).short_answer
  else if mode = jsStr "link" then
    if result.source_hint ≠ [] then
      (if lang = jsStr "en" then
        jsStr "Source: " ++ result.source_hint ++ jsStr "\n\nEvidence:\n" ++ firstQuoteText result.verbatim
      else
        jsStr "المصدر: " ++ result.source_hint ++ jsStr "\n\nالدليل:\n" ++ firstQuoteText result.verbatim)
    else (if lang = jsStr "en" then jsStr "Source not found in protocol."
          else jsStr "المصدر غير موجود في البروتوكول.")
  else
    if result.verdict = jsStr "FOUND" ∧ result.short_answer ≠ [] then result.short_answer
    else (minimalNotFound lang).short_answer

/-- Outcome of one oracle call: `failure` covers a thrown transport error,
timeout or non-ok HTTP status; `success o` is a returned response whose
output text `safeJsonParse`s to `o` (`none` = malformed JSON). -/
inductive OracleOutcome (α : Type) where
  | failure
  | success (parsed : Option α)
  deriving DecidableEq, Repr

/-- The request payload fields consumed by the handler (each may be absent)
plus the topic-resolution table `refs.manifest.json`, as a lookup from drug
key to `vector_store_id` (`none`: key absent, or its entry has no
`vector_store_id`). -/
structure HandlerInput where
  drugKey : Option JsString
  question : Option JsString
  lang : Option JsString
  answerMode : Option JsString
  mode : Option JsString
  refs : JsString → Option JsString

/-- Model of `String(payload.drugKey || "").trim().toLowerCase()`. -/
def reqDrugKey (inp : HandlerInput) : JsString := jsToLower (trimJs (jsOrOpt inp.drugKey []))

/-- Model of `String(payload.question || "").trim()`. -/
def reqQuestion (inp : HandlerInput) : JsString := trimJs (jsOrOpt inp.question [])

/-- Model of `String(payload.lang || "auto").trim().toLowerCase()`. -/
def reqLangSetting (inp : HandlerInput) : JsString :=
  jsToLower (trimJs (jsOrOpt inp.lang (jsStr "auto")))

/-- Model of `String(payload.answerMode || "recommended").trim().toLowerCase()`. -/
def reqAnswerMode (inp : HandlerInput) : JsString :=
  jsToLower (trimJs (jsOrOpt inp.answerMode (jsStr "recommended")))

/-- Model of `String(payload.mode || "hybrid").trim().toLowerCase()`. -/
def reqMode (inp : HandlerInput) : JsString := jsToLower (trimJs (jsOrOpt inp.mode (jsStr "hybrid")))

/-- A response body: every JSON field that some `json(...)` call of the
handler emits, `none` when the field is absent from that body.  (`details`,
the stringified exception, is not modelled.) -/
structure RespBody where
  statusCode : Nat
  ok : Option Bool
  error : Option JsString
  locked : Option Bool
  drugKey : Option JsString
  vector_store_id : Option JsString
  mode : Option JsString
  answerMode : Option JsString
  reply : Option JsString
  result : Option AnswerObj
  error_guardrail : Option JsString
  evidence_note : Option JsString
  deriving DecidableEq, Repr

/-- A `json({error: msg}, code)` client/server error response. -/
def errResp (msg : JsString) (code : Nat) : RespBody :=
  { statusCode := code, ok := none, error := some msg, locked := none, drugKey := none,
    vector_store_id := none, mode := none, answerMode := none, reply := none,
    result := none, error_guardrail := none, evidence_note := none }

/-- The fixed unsupported-topic message. -/
def unsupportedTopicMsg : JsString :=
  jsStr "هذا الدواء غير موجود ضمن القائمة المتاحة في النظام (لا يوجد PDF/VectorStore مرتبط به)."

/-- The unsupported-topic response body. -/
def unsupportedResp (drugKey : JsString) : RespBody :=
  { statusCode := 200, ok := some true, error := none, locked := some true,
    drugKey := some drugKey, vector_store_id := none, mode := none, answerMode := none,
    reply := some unsupportedTopicMsg, result := none, error_guardrail := none,
    evidence_note := none }

/-- The handler response together with which oracle calls were issued. -/
structure HandlerOutput where
  response : RespBody
  extractorCalled : Bool
  composerCalled : Bool

/-- The POST branch of `handler` in ask.mjs, from payload-field extraction
onward.  Transport preliminaries (OPTIONS/method dispatch, API-key and
manifest-file checks, JSON body parsing) and prompt construction feed only
the excluded transport layer and the oracle, whose behavior enters as the
two `OracleOutcome` arguments. -/
def runHandler (inp : HandlerInput) (ext : OracleOutcome EvidenceSet)
    (comp : OracleOutcome AnswerObj) : HandlerOutput :=
  let drugKey := reqDrugKey inp
  let question := reqQuestion inp
  let langSetting := reqLangSetting inp
  let answerMode := reqAnswerMode inp
  let mode := reqMode inp
  if drugKey = [] then ⟨errResp (jsStr "drugKey is required") 400, false, false⟩
  else if question = [] then ⟨errResp (jsStr "question is required") 400, false, false⟩
  else
    match inp.refs drugKey with
    | none => ⟨unsupportedResp drugKey, false, false⟩
    | some vectorStoreId =>
      if vectorStoreId = [] then ⟨unsupportedResp drugKey, false, false⟩
      else
        let lang := inferLangFromUserSetting (some langSetting) question
        match ext with
        | .failure =>
          let nf := minimalNotFound lang
          ⟨{ statusCode := 200, ok := some true, error := none, locked := some true,
             drugKey := some drugKey, vector_store_id := some vectorStoreId,
             mode := some mode, answerMode := none, reply := some nf.short_answer,
             result := some nf, error_guardrail := some (jsStr "evidence_extraction_failed"),
             evidence_note := none }, true, false⟩
        | .success parsed1 =>
          let evidenceResult := enforceEvidenceSanity parsed1
          if evidenceResult.verdict ≠ jsStr "FOUND" then
            let nf := minimalNotFound lang
            ⟨{ statusCode := 200, ok := some true, error := none, locked := some true,
               drugKey := some drugKey, vector_store_id := some vectorStoreId,
               mode := some mode, answerMode := none, reply := some nf.short_answer,
               result := some nf, error_guardrail := none,
               evidence_note := some evidenceResult.note }, true, false⟩
          else
            let finalObj :=
              match comp with
              | .failure =>
                let nf := minimalNotFound lang
                { nf with warnings := nf.warnings ++ [composerFailedWarning lang] }
              | .success parsed2 => verifyAnswer parsed2 lang
            let result0 : AnswerObj :=
              { verdict := finalObj.verdict
                short_answer := jsOrStr finalObj.short_answer []
                verbatim := if finalObj.verbatim ≠ [] then finalObj.verbatim
                            else evidenceResult.evidence
                source_hint := jsOrStr finalObj.source_hint []
                warnings := finalObj.warnings }
            let result := if mode = jsStr "verbatim" then { result0 with short_answer := [] }
                          else result0
            let reply := renderReply mode lang result
            ⟨{ statusCode := 200, ok := some true, error := none, locked := some true,
               drugKey := some drugKey, vector_store_id := some vectorStoreId,
               mode := some mode, answerMode := some answerMode, reply := some reply,
               result := some result, error_guardrail := none,
               evidence_note := none }, true, true⟩

/-- Scenario input: a FOUND extraction whose only quote is too short. -/
def tinyQuoteSet : EvidenceSet :=
  { verdict := jsStr "FOUND"
    evidence := [{ quote := jsStr "ok", section_hint := [], page_hint := [] }]
    note := [] }

/-- Scenario input: a FOUND extraction with the same quote twice. -/
def dupQuoteSet : EvidenceSet :=
  { verdict := jsStr "FOUND"
    evidence :=
      [{ quote := jsStr "Max 2g/day", section_hint := jsStr "Dosing", page_hint := jsStr "p.3" },
       { quote := jsStr "Max 2g/day", section_hint := jsStr "Dosing", page_hint := jsStr "p.3" }]
    note := [] }


/-- Concrete request used by the closed-theorem evaluations: a supported
drug key and an English question. -/
def sampleInput : HandlerInput :=
  { drugKey := some (jsStr "argatroban")
    question := some (jsStr "What is the initial dose?")
    lang := some (jsStr "en")
    answerMode := none
    mode := none
    refs := fun k => if k = jsStr "argatroban" then some (jsStr "vs_abc123") else none }

/-- Concrete raw extraction output: one usable quote, verdict FOUND. -/
def sampleEvidenceSet : EvidenceSet :=
  { verdict := jsStr "FOUND"
    evidence := [{ quote := jsStr "Initial dose 2 mcg/kg/min"
                   section_hint := jsStr "ARGATROBAN"
                   page_hint := jsStr "Page 11" }]
    note := [] }

/-- Concrete extraction outcome wrapping `sampleEvidenceSet`. -/
def sampleExtraction : OracleOutcome EvidenceSet := .success (some sampleEvidenceSet)

/-- Scenario result for verbatim-mode rendering: one FOUND quote with
section and page hints. -/
def sampleRenderResult : AnswerObj :=
  { verdict := jsStr "FOUND"
    short_answer := []
    verbatim := [{ quote := jsStr "Give 500mg q8h", section_hint := jsStr "Dosing",
                   page_hint := jsStr "p.4" }]
    source_hint := []
    warnings := [] }

/-- A composed answer claiming FOUND with no verbatim quotes. -/
def sampleUngroundedAnswer : AnswerObj :=
  { verdict := jsStr "FOUND", short_answer := jsStr "Take 1g daily."
    verbatim := [], source_hint := [], warnings := [] }

/-- A well-grounded composed answer. -/
def sampleGroundedAnswer : AnswerObj :=
  { verdict := jsStr "FOUND", short_answer := jsStr "Start at 2 mcg/kg/min."
    verbatim := [{ quote := jsStr "Initial dose 2 mcg/kg/min", section_hint := [],
                   page_hint := [] }]
    source_hint := jsStr "ARGATROBAN, Page 11", warnings := [] }

/-- An answer result with no quotes and no source hint. -/
def sampleEmptyResult : AnswerObj :=
  { verdict := jsStr "NOT_FOUND", short_answer := [], verbatim := []
    source_hint := [], warnings := [] }


/-- The head of the list, if any, is not whitespace. -/
def headNotWs : List Char → Bool
  | [] => true
  | c :: _ => !isWs c

/-- Whitespace-normal form: every whitespace character is a plain space and
is followed by a non-whitespace character. -/
def noRun : List Char → Bool
  | [] => true
  | c :: cs => (!isWs c || (c == ' ' && headNotWs cs)) && noRun cs

theorem noRun_tail {c : Char} {cs : List Char} (h : noRun (c :: cs) = true) : noRun cs = true := by
  simp [noRun] at h
  exact h.2

theorem collapseGo_props : ∀ l : List Char,
    noRun (collapseGo false l) = true ∧ noRun (collapseGo true l) = true ∧
    headNotWs (collapseGo true l) = true := by
  intro l
  induction l with
  | nil => exact ⟨rfl, rfl, rfl⟩
  | cons c cs ih =>
    obtain ⟨ih1, ih2, ih3⟩ := ih
    by_cases h : isWs c = true
    · refine ⟨?_, ?_, ?_⟩
      · simp [collapseGo, h, noRun, ih2, ih3]
      · simp [collapseGo, h, ih2]
      · simp [collapseGo, h, ih3]
    · refine ⟨?_, ?_, ?_⟩
      · simp [collapseGo, h, noRun, ih1]
      · simp [collapseGo, h, noRun, ih1]
      · simp [collapseGo, h, headNotWs]

theorem collapseGo_id : ∀ l : List Char,
    (noRun l = true → collapseGo false l = l) ∧
    (noRun l = true → headNotWs l = true → collapseGo true l = l) := by
  intro l
  induction l with
  | nil => exact ⟨fun _ => rfl, fun _ _ => rfl⟩
  | cons c cs ih =>
    obtain ⟨ih1, ih2⟩ := ih
    constructor
    · intro hn
      by_cases h : isWs c = true
      · have hc : c = ' ' ∧ headNotWs cs = true := by
          simp [noRun, h] at hn
          exact ⟨hn.1.1, hn.1.2⟩
        have hcs : noRun cs = true := noRun_tail hn
        have hsp : isWs ' ' = true := by decide
        simp [collapseGo, h, hsp, ih2 hcs hc.2, hc.1]
      · simp [collapseGo, h, ih1 (noRun_tail hn)]
    · intro hn hh
      have h : isWs c = false := by
        simp [headNotWs] at hh
        exact hh
      simp [collapseGo, h, ih1 (noRun_tail hn)]

theorem trimEnd_cons (c : Char) (cs : List Char) :
    trimEnd (c :: cs) = [] ∨ ∃ t, trimEnd (c :: cs) = c :: t := by
  by_cases h : trimEnd cs = []
  · by_cases hw : isWs c = true
    · left; simp [trimEnd, h, hw]
    · right; exact ⟨[], by simp [trimEnd, h, hw]⟩
  · right; exact ⟨trimEnd cs, by simp [trimEnd, h]⟩

theorem noRun_trimEnd : ∀ l : List Char, noRun l = true → noRun (trimEnd l) = true := by
  intro l
  induction l with
  | nil => intro _; rfl
  | cons c cs ih =>
    intro hn
    have hcs := ih (noRun_tail hn)
    by_cases h : trimEnd cs = []
    · by_cases hw : isWs c = true
      · simp [trimEnd, h, hw, noRun]
      · simp [trimEnd, h, hw, noRun, headNotWs]
    · have hhead : headNotWs (trimEnd cs) = headNotWs cs := by
        cases cs with
        | nil => simp [trimEnd] at h
        | cons d ds =>
          rcases trimEnd_cons d ds with h0 | ⟨t, ht⟩
          · exact absurd h0 h
          · simp [ht, headNotWs]
      simp only [trimEnd, if_neg h]
      simp [noRun, hcs, hhead]
      simp [noRun] at hn
      exact hn.1

theorem trimEnd_idem : ∀ l : List Char, trimEnd (trimEnd l) = trimEnd l := by
  intro l
  induction l with
  | nil => rfl
  | cons c cs ih =>
    by_cases h : trimEnd cs = []
    · by_cases hw : isWs c = true
      · simp [trimEnd, h, hw]
      · simp [trimEnd, h, hw]
    · simp only [trimEnd, if_neg h]
      simp only [trimEnd, ih, if_neg h]

theorem noRun_dropWhile : ∀ l : List Char, noRun l = true → noRun (l.dropWhile isWs) = true := by
  intro l
  induction l with
  | nil => intro _; rfl
  | cons c cs ih =>
    intro hn
    by_cases h : isWs c = true
    · simpa [List.dropWhile_cons, h] using ih (noRun_tail hn)
    · simpa [List.dropWhile_cons, h] using hn

theorem dropWhile_head_false : ∀ (l : List Char) (d : Char) (ds : List Char),
    l.dropWhile isWs = d :: ds → isWs d = false := by
  intro l
  induction l with
  | nil => intro d ds h; simp at h
  | cons c cs ih =>
    intro d ds h
    by_cases hw : isWs c = true
    · rw [List.dropWhile_cons, if_pos hw] at h
      exact ih d ds h
    · rw [List.dropWhile_cons, if_neg hw] at h
      cases h
      simpa using hw

theorem dropWhile_trimJs (l : JsString) : (trimJs l).dropWhile isWs = trimJs l := by
  unfold trimJs
  cases hd : l.dropWhile isWs with
  | nil => rfl
  | cons d ds =>
    rcases trimEnd_cons d ds with h0 | ⟨t, ht⟩
    · simp [h0]
    · rw [ht, List.dropWhile_cons, if_neg (by simp [dropWhile_head_false l d ds hd])]

theorem noRun_normalizeSpace (s : JsString) : noRun (normalizeSpace s) = true := by
  unfold normalizeSpace trimJs collapseWs
  exact noRun_trimEnd _ (noRun_dropWhile _ (collapseGo_props s).1)

theorem normalizeSpace_idem (s : JsString) : normalizeSpace (normalizeSpace s) = normalizeSpace s := by
  have hn : noRun (normalizeSpace s) = true := noRun_normalizeSpace s
  show trimJs (collapseWs (normalizeSpace s)) = normalizeSpace s
  rw [show collapseWs (normalizeSpace s) = normalizeSpace s from (collapseGo_id _).1 hn]
  unfold trimJs
  rw [show normalizeSpace s = trimJs (collapseWs s) from rfl, dropWhile_trimJs]
  unfold trimJs
  exact trimEnd_idem _

theorem jsOrStr_nil_right (a : JsString) : jsOrStr a [] = a := by
  unfold jsOrStr
  split <;> simp_all

theorem clampStr_idem (s : JsString) (m : Nat) : clampStr (clampStr s m) m = clampStr s m := by
  unfold clampStr
  by_cases h : s.length ≤ m
  · simp [h]
  · simp only [if_neg h]
    have hlen : (s.take m ++ ['…']).length = m + 1 := by
      simp [List.length_take]
      omega
    have hgt : ¬ (s.take m ++ ['…']).length ≤ m := by omega
    simp only [if_neg hgt]
    have htake : (s.take m ++ ['…']).take m = s.take m := by
      rw [List.take_append_of_le_length]
      · simp [List.take_take]
      · simp [List.length_take]; omega
    rw [htake]

theorem cleanQuote_idem (e : EvidenceQuote) : cleanQuote (cleanQuote e) = cleanQuote e := by
  simp [cleanQuote, normalizeSpace_idem]

theorem dedupQuotes_sublist : ∀ (l : List EvidenceQuote) (seen : List JsString),
    List.Sublist (dedupQuotes l seen) l := by
  intro l
  induction l with
  | nil => intro seen; simp [dedupQuotes]
  | cons e es ih =>
    intro seen
    by_cases h : jsToLower e.quote ∈ seen
    · simp only [dedupQuotes, if_pos h]
      exact (ih seen).cons e
    · simp only [dedupQuotes, if_neg h]
      exact (ih _).cons₂ e

theorem dedupQuotes_props : ∀ (l : List EvidenceQuote) (seen : List JsString),
    (∀ e ∈ dedupQuotes l seen, jsToLower e.quote ∉ seen) ∧
    (dedupQuotes l seen).Pairwise (fun a b => jsToLower a.quote ≠ jsToLower b.quote) := by
  intro l
  induction l with
  | nil => intro seen; simp [dedupQuotes]
  | cons e es ih =>
    intro seen
    by_cases h : jsToLower e.quote ∈ seen
    · simpa only [dedupQuotes, if_pos h] using ih seen
    · simp only [dedupQuotes, if_neg h]
      obtain ⟨ihmem, ihpw⟩ := ih (jsToLower e.quote :: seen)
      constructor
      · intro x hx
        rcases List.mem_cons.1 hx with rfl | hx
        · exact h
        · intro hmem
          exact ihmem x hx (List.mem_cons_of_mem _ hmem)
      · refine List.Pairwise.cons ?_ ihpw
        intro b hb heq
        exact ihmem b hb (heq ▸ List.mem_cons_self _ _)

theorem dedupQuotes_eq_self : ∀ (l : List EvidenceQuote) (seen : List JsString),
    (∀ e ∈ l, jsToLower e.quote ∉ seen) →
    l.Pairwise (fun a b => jsToLower a.quote ≠ jsToLower b.quote) →
    dedupQuotes l seen = l := by
  intro l
  induction l with
  | nil => intro seen _ _; rfl
  | cons e es ih =>
    intro seen hmem hpw
    have h : jsToLower e.quote ∉ seen := hmem e (List.mem_cons_self _ _)
    simp only [dedupQuotes, if_neg h]
    congr 1
    refine ih _ ?_ (List.Pairwise.of_cons hpw)
    intro x hx
    simp only [List.mem_cons]
    push_neg
    refine ⟨?_, hmem x (List.mem_cons_of_mem _ hx)⟩
    intro heq
    exact (List.rel_of_pairwise_cons hpw hx) heq.symm

theorem dedupQuotes_ne_nil (e : EvidenceQuote) (es : List EvidenceQuote) :
    dedupQuotes (e :: es) [] ≠ [] := by
  simp [dedupQuotes]

theorem map_id_of_forall {α : Type} (f : α → α) :
    ∀ l : List α, (∀ a ∈ l, f a = a) → l.map f = l := by
  intro l
  induction l with
  | nil => intro _; rfl
  | cons a as ih =>
    intro h
    simp only [List.map_cons]
    rw [h a (List.mem_cons_self _ _), ih (fun b hb => h b (List.mem_cons_of_mem _ hb))]

/-- The three output forms of `enforceEvidenceSanity` on a parsed object. -/
theorem enforce_some_shape (x : EvidenceSet) :
    (enforceEvidenceSanity (some x)
        = ⟨jsStr "NOT_FOUND", [], jsStr "No usable evidence extracted."⟩) ∨
    (enforceEvidenceSanity (some x)
        = ⟨jsStr "NOT_FOUND", [], clampStr (jsOrStr x.note []) 240⟩) ∨
    (∃ cleaned, cleaned = (x.evidence.map cleanQuote).filter (fun e => 8 ≤ e.quote.length) ∧
        cleaned ≠ [] ∧
        enforceEvidenceSanity (some x)
          = ⟨jsStr "FOUND", (dedupQuotes cleaned []).take 6,
             clampStr (jsOrStr x.note []) 240⟩) := by
  by_cases hv : x.verdict = jsStr "FOUND"
  · by_cases hc : (x.evidence.map cleanQuote).filter (fun e => 8 ≤ e.quote.length) = []
    · left
      simp [enforceEvidenceSanity, hv, hc]
    · right; right
      exact ⟨_, rfl, hc, by simp [enforceEvidenceSanity, hv, hc]⟩
  · right; left
    simp [enforceEvidenceSanity, hv]

theorem enforce_none : enforceEvidenceSanity none = ⟨jsStr "NOT_FOUND", [], []⟩ := by decide

/-- A FOUND sanitizer output comes from the FOUND branch. -/
theorem enforce_found_form (o : Option EvidenceSet)
    (h : (enforceEvidenceSanity o).verdict = jsStr "FOUND") :
    ∃ x cleaned, o = some x ∧
      cleaned = (x.evidence.map cleanQuote).filter (fun e => 8 ≤ e.quote.length) ∧
      cleaned ≠ [] ∧
      enforceEvidenceSanity o
        = ⟨jsStr "FOUND", (dedupQuotes cleaned []).take 6,
           clampStr (jsOrStr x.note []) 240⟩ := by
  cases o with
  | none => rw [enforce_none] at h; exact absurd h (by decide)
  | some x =>
    rcases enforce_some_shape x with hs | hs | ⟨cleaned, hdef, hne, hs⟩
    · rw [hs] at h; exact absurd h (by decide)
    · rw [hs] at h
      exact absurd h (show ¬ (jsStr "NOT_FOUND" = jsStr "FOUND") by decide)
    · exact ⟨x, cleaned, rfl, hdef, hne, hs⟩

/-- Quotes surviving sanitization are normalized and at least 8 characters
long. -/
theorem enforce_mem (o : Option EvidenceSet) :
    ∀ e ∈ (enforceEvidenceSanity o).evidence, 8 ≤ e.quote.length ∧ cleanQuote e = e := by
  intro e he
  by_cases hv : (enforceEvidenceSanity o).verdict = jsStr "FOUND"
  · obtain ⟨x, cleaned, _, hdef, _, hs⟩ := enforce_found_form o hv
    rw [hs] at he
    have h1 : e ∈ dedupQuotes cleaned [] := (List.take_sublist _ _).mem he
    have h2 : e ∈ cleaned := (dedupQuotes_sublist cleaned []).mem h1
    rw [hdef] at h2
    obtain ⟨h3, h4⟩ := List.mem_filter.1 h2
    obtain ⟨a, _, ha⟩ := List.mem_map.1 h3
    refine ⟨of_decide_eq_true h4, ?_⟩
    rw [← ha, cleanQuote_idem]
  · exfalso
    cases o with
    | none => rw [enforce_none] at he; simp at he
    | some x =>
      rcases enforce_some_shape x with hs | hs | ⟨cleaned, _, _, hs⟩
      · rw [hs] at he; simp at he
      · rw [hs] at he; simp at he
      · rw [hs] at hv; exact hv rfl

/-- Sanitized quotes are pairwise distinct on lower-cased text. -/
theorem enforce_pairwise (o : Option EvidenceSet) :
    (enforceEvidenceSanity o).evidence.Pairwise
      (fun a b => jsToLower a.quote ≠ jsToLower b.quote) := by
  by_cases hv : (enforceEvidenceSanity o).verdict = jsStr "FOUND"
  · obtain ⟨x, cleaned, _, _, _, hs⟩ := enforce_found_form o hv
    rw [hs]
    exact ((dedupQuotes_props cleaned []).2).sublist (List.take_sublist _ _)
  · cases o with
    | none => rw [enforce_none]; simp
    | some x =>
      rcases enforce_some_shape x with hs | hs | ⟨cleaned, _, _, hs⟩
      · rw [hs]; simp
      · rw [hs]; simp
      · rw [hs] at hv; exact absurd rfl hv

/-- A FOUND sanitizer output carries between 1 and 6 quotes. -/
theorem enforce_found_len (o : Option EvidenceSet)
    (h : (enforceEvidenceSanity o).verdict = jsStr "FOUND") :
    1 ≤ (enforceEvidenceSanity o).evidence.length ∧
      (enforceEvidenceSanity o).evidence.length ≤ 6 := by
  obtain ⟨x, cleaned, _, _, hne, hs⟩ := enforce_found_form o h
  rw [hs]
  simp only [List.length_take]
  cases hcl : cleaned with
  | nil => exact absurd hcl hne
  | cons e es =>
    have h1 : dedupQuotes cleaned [] ≠ [] := hcl ▸ dedupQuotes_ne_nil e es
    have h2 : 1 ≤ (dedupQuotes cleaned []).length := by
      cases hd : dedupQuotes cleaned [] with
      | nil => exact absurd hd h1
      | cons f fs => simp
    rw [hcl] at h2
    omega

/-- Sanitized quotes are a sublist (first-seen order) of the normalized,
length-filtered input quotes. -/
theorem enforce_order (x : EvidenceSet) :
    List.Sublist (enforceEvidenceSanity (some x)).evidence
      ((x.evidence.map cleanQuote).filter (fun e => 8 ≤ e.quote.length)) := by
  rcases enforce_some_shape x with hs | hs | ⟨cleaned, hdef, _, hs⟩
  · rw [hs]; exact List.nil_sublist _
  · rw [hs]; exact List.nil_sublist _
  · rw [hs, ← hdef]
    exact (List.take_sublist _ _).trans (dedupQuotes_sublist cleaned [])

/-- Unfolding of the sanitizer on a parsed object. -/
theorem enforce_some_eq (x : EvidenceSet) : enforceEvidenceSanity (some x) =
    if x.verdict = jsStr "FOUND" then
      (if (x.evidence.map cleanQuote).filter (fun e => 8 ≤ e.quote.length) = [] then
        ⟨jsStr "NOT_FOUND", [], jsStr "No usable evidence extracted."⟩
       else
        ⟨jsStr "FOUND",
         (dedupQuotes ((x.evidence.map cleanQuote).filter (fun e => 8 ≤ e.quote.length)) []).take 6,
         clampStr (jsOrStr x.note []) 240⟩)
    else ⟨jsStr "NOT_FOUND", [], clampStr (jsOrStr x.note []) 240⟩ := rfl

/-- A FOUND EvidenceSet already in sanitized form is a fixed point. -/
theorem enforce_found_fix (y : EvidenceSet)
    (hv : y.verdict = jsStr "FOUND")
    (hq : ∀ e ∈ y.evidence, 8 ≤ e.quote.length ∧ cleanQuote e = e)
    (hpw : y.evidence.Pairwise (fun a b => jsToLower a.quote ≠ jsToLower b.quote))
    (hnnil : y.evidence ≠ [])
    (hlen : y.evidence.length ≤ 6)
    (hnote : clampStr (jsOrStr y.note []) 240 = y.note) :
    enforceEvidenceSanity (some y) = y := by
  obtain ⟨v, ev, n⟩ := y
  simp only at hv hq hpw hnnil hlen hnote
  have hmap : ev.map cleanQuote = ev := map_id_of_forall _ _ (fun e he => (hq e he).2)
  have hfil : (ev.map cleanQuote).filter (fun e => 8 ≤ e.quote.length) = ev := by
    rw [hmap]
    exact List.filter_eq_self.mpr (fun e he => decide_eq_true (hq e he).1)
  have hded : dedupQuotes ev [] = ev := dedupQuotes_eq_self _ [] (by simp) hpw
  rw [enforce_some_eq]
  simp only
  rw [if_pos hv, hfil, if_neg hnnil, hded, List.take_of_length_le hlen, hnote, hv]

theorem minimalNotFound_verdict (lang : JsString) :
    (minimalNotFound lang).verdict = jsStr "NOT_FOUND" := by
  unfold minimalNotFound
  split <;> rfl

theorem minimalNotFound_verbatim (lang : JsString) : (minimalNotFound lang).verbatim = [] := by
  unfold minimalNotFound
  split <;> rfl

theorem verifyAnswer_found_nonempty (o : Option AnswerObj) (lang : JsString)
    (h : (verifyAnswer o lang).verdict = jsStr "FOUND") :
    (verifyAnswer o lang).verbatim ≠ [] := by
  cases o with
  | none =>
    rw [show verifyAnswer none lang = minimalNotFound lang from rfl, minimalNotFound_verdict] at h
    exact absurd h (by decide)
  | some p =>
    by_cases hc : p.verdict = jsStr "FOUND" ∧ p.verbatim = []
    · rw [show verifyAnswer (some p) lang = if p.verdict = jsStr "FOUND" ∧ p.verbatim = []
          then minimalNotFound lang else p from rfl, if_pos hc, minimalNotFound_verdict] at h
      exact absurd h (by decide)
    · rw [show verifyAnswer (some p) lang = if p.verdict = jsStr "FOUND" ∧ p.verbatim = []
          then minimalNotFound lang else p from rfl, if_neg hc] at *
      intro hnil
      exact hc ⟨h, hnil⟩

/-- The sanitizer is idempotent. -/
theorem enforce_idem (x : EvidenceSet) :
    enforceEvidenceSanity (some (enforceEvidenceSanity (some x))) = enforceEvidenceSanity (some x) := by
  rcases enforce_some_shape x with hs | hs | ⟨cleaned, hdef, hne, hs⟩
  · rw [hs]; decide
  · rw [hs, enforce_some_eq]
    have hne2 : ¬ ((⟨jsStr "NOT_FOUND", [], clampStr (jsOrStr x.note []) 240⟩ : EvidenceSet).verdict
        = jsStr "FOUND") := (show ¬ (jsStr "NOT_FOUND" = jsStr "FOUND") by decide)
    rw [if_neg hne2]
    show (⟨jsStr "NOT_FOUND", [],
      clampStr (jsOrStr (clampStr (jsOrStr x.note []) 240) []) 240⟩ : EvidenceSet) = _
    rw [jsOrStr_nil_right, clampStr_idem]
  · have hv : (enforceEvidenceSanity (some x)).verdict = jsStr "FOUND" := by rw [hs]
    have hlen := enforce_found_len (some x) hv
    refine enforce_found_fix _ hv (enforce_mem (some x)) (enforce_pairwise (some x)) ?_ hlen.2 ?_
    · intro h0
      rw [h0] at hlen
      simp at hlen
    · rw [hs]
      dsimp only
      rw [jsOrStr_nil_right, clampStr_idem]

/-- C1: if the evidence-extraction oracle call fails (thrown transport
error / timeout, or malformed structured output), the end-to-end result
has verdict NOT_FOUND and the composer oracle call is never issued. -/
theorem extraction_failure_short_circuits (inp : HandlerInput)
    (ext : OracleOutcome EvidenceSet) (comp : OracleOutcome AnswerObj)
    (hfail : ext = .failure ∨ ext = .success none)
    (hcalled : (runHandler inp ext comp).extractorCalled = true) :
    ∃ r, (runHandler inp ext comp).response.result = some r ∧
      r.verdict = jsStr "NOT_FOUND" ∧
      (runHandler inp ext comp).composerCalled = false := by
  by_cases h1 : reqDrugKey inp = []
  · simp [runHandler, h1] at hcalled
  by_cases h2 : reqQuestion inp = []
  · simp [runHandler, h1, h2] at hcalled
  cases href : inp.refs (reqDrugKey inp) with
  | none => simp [runHandler, h1, h2, href] at hcalled
  | some vsId =>
    by_cases h3 : vsId = []
    · simp [runHandler, h1, h2, href, h3] at hcalled
    · rcases hfail with rfl | rfl
      · simp [runHandler, h1, h2, href, h3, minimalNotFound_verdict]
      · have hnv : (enforceEvidenceSanity none).verdict ≠ jsStr "FOUND" := by
          rw [enforce_none]; decide
        simp [runHandler, h1, h2, href, h3, hnv, minimalNotFound_verdict]

/-- C1 witness: concrete run with a failed extraction call. -/
theorem extraction_failure_short_circuits_witness :
    ∃ r, (runHandler sampleInput .failure (.success none)).response.result = some r ∧
      r.verdict = jsStr "NOT_FOUND" ∧
      (runHandler sampleInput .failure (.success none)).composerCalled = false :=
  extraction_failure_short_circuits sampleInput .failure (.success none) (Or.inl rfl) (by decide)

/-- C5: a topicKey absent from the resolver table yields the fixed
unsupported-topic response and neither oracle call is issued. -/
theorem unknown_topic_zero_calls (inp : HandlerInput)
    (ext : OracleOutcome EvidenceSet) (comp : OracleOutcome AnswerObj)
    (h1 : reqDrugKey inp ≠ []) (h2 : reqQuestion inp ≠ [])
    (href : inp.refs (reqDrugKey inp) = none) :
    (runHandler inp ext comp).response = unsupportedResp (reqDrugKey inp) ∧
    (runHandler inp ext comp).response.reply = some unsupportedTopicMsg ∧
    (runHandler inp ext comp).extractorCalled = false ∧
    (runHandler inp ext comp).composerCalled = false := by
  simp [runHandler, h1, h2, href, unsupportedResp]

/-- C5 witness: concrete request with an unknown drug key. -/
theorem unknown_topic_zero_calls_witness :
    (runHandler { sampleInput with drugKey := some (jsStr "amoxicillin") } .failure .failure).response
        = unsupportedResp (reqDrugKey { sampleInput with drugKey := some (jsStr "amoxicillin") }) ∧
    (runHandler { sampleInput with drugKey := some (jsStr "amoxicillin") } .failure .failure).response.reply
        = some unsupportedTopicMsg ∧
    (runHandler { sampleInput with drugKey := some (jsStr "amoxicillin") } .failure .failure).extractorCalled = false ∧
    (runHandler { sampleInput with drugKey := some (jsStr "amoxicillin") } .failure .failure).composerCalled = false :=
  unknown_topic_zero_calls { sampleInput with drugKey := some (jsStr "amoxicillin") }
    .failure .failure (by decide) (by decide) (by decide)

/-- C4 counterexample: a request whose composition call fails is answered
without any `error_guardrail` tag (in particular not
`"answer_composition_failed"`), although the composer was invoked and
failed. -/
theorem composer_failure_has_no_guardrail_tag :
    (runHandler sampleInput sampleExtraction .failure).composerCalled = true ∧
    (runHandler sampleInput sampleExtraction .failure).response.error_guardrail
      ≠ some (jsStr "answer_composition_failed") := by decide

/-- C4 (amended): when the composition oracle call fails, the handler still
returns a normal 200 response (no exception), whose result has verdict
NOT_FOUND and carries the canned warnings plus the degradation warning,
but the response body carries no `error_guardrail` tag. -/
theorem composer_failure_degrades (inp : HandlerInput) (ext : OracleOutcome EvidenceSet)
    (hcalled : (runHandler inp ext .failure).composerCalled = true) :
    ∃ r lang, (runHandler inp ext .failure).response.result = some r ∧
      r.verdict = jsStr "NOT_FOUND" ∧
      r.warnings = (minimalNotFound lang).warnings ++ [composerFailedWarning lang] ∧
      (runHandler inp ext .failure).response.statusCode = 200 ∧
      (runHandler inp ext .failure).response.ok = some true ∧
      (runHandler inp ext .failure).response.error_guardrail = none := by
  by_cases h1 : reqDrugKey inp = []
  · simp [runHandler, h1] at hcalled
  by_cases h2 : reqQuestion inp = []
  · simp [runHandler, h1, h2] at hcalled
  cases href : inp.refs (reqDrugKey inp) with
  | none => simp [runHandler, h1, h2, href] at hcalled
  | some vsId =>
    by_cases h3 : vsId = []
    · simp [runHandler, h1, h2, href, h3] at hcalled
    cases ext with
    | failure => simp [runHandler, h1, h2, href, h3] at hcalled
    | success parsed1 =>
      by_cases hev : (enforceEvidenceSanity parsed1).verdict ≠ jsStr "FOUND"
      · simp [runHandler, h1, h2, href, h3, hev] at hcalled
      · by_cases hm : reqMode inp = jsStr "verbatim"
        · simp [runHandler, h1, h2, href, h3, hev, hm, minimalNotFound_verdict]
          exact ⟨_, rfl⟩
        · simp [runHandler, h1, h2, href, h3, hev, hm, minimalNotFound_verdict]
          exact ⟨_, rfl⟩

/-- C4 witness: the amended statement at the concrete composer-failure run. -/
theorem composer_failure_degrades_witness :
    ∃ r lang, (runHandler sampleInput sampleExtraction .failure).response.result = some r ∧
      r.verdict = jsStr "NOT_FOUND" ∧
      r.warnings = (minimalNotFound lang).warnings ++ [composerFailedWarning lang] ∧
      (runHandler sampleInput sampleExtraction .failure).response.statusCode = 200 ∧
      (runHandler sampleInput sampleExtraction .failure).response.ok = some true ∧
      (runHandler sampleInput sampleExtraction .failure).response.error_guardrail = none :=
  composer_failure_degrades sampleInput sampleExtraction (by decide)

/-- C9: whenever the composer stage is reached, the returned result's
verbatim list is non-empty; on a composer failure it is back-filled with
the sanitized extraction quotes; the early-exit canned not-found (failed
extraction) instead has an empty verbatim list. -/
theorem composition_path_carries_evidence :
    (∀ inp ext comp, (runHandler inp ext comp).composerCalled = true →
      ∃ r, (runHandler inp ext comp).response.result = some r ∧ r.verbatim ≠ []) ∧
    (∀ inp (es : EvidenceSet) comp,
      (runHandler inp (.success (some es)) comp).composerCalled = true → comp = .failure →
      ∃ r, (runHandler inp (.success (some es)) comp).response.result = some r ∧
        r.verbatim = (enforceEvidenceSanity (some es)).evidence) ∧
    (∀ inp ext comp, ext = .failure → (runHandler inp ext comp).extractorCalled = true →
      ∃ r, (runHandler inp ext comp).response.result = some r ∧ r.verbatim = []) := by
  refine ⟨?_, ?_, ?_⟩
  · intro inp ext comp hcalled
    by_cases h1 : reqDrugKey inp = []
    · simp [runHandler, h1] at hcalled
    by_cases h2 : reqQuestion inp = []
    · simp [runHandler, h1, h2] at hcalled
    cases href : inp.refs (reqDrugKey inp) with
    | none => simp [runHandler, h1, h2, href] at hcalled
    | some vsId =>
      by_cases h3 : vsId = []
      · simp [runHandler, h1, h2, href, h3] at hcalled
      cases ext with
      | failure => simp [runHandler, h1, h2, href, h3] at hcalled
      | success parsed1 =>
        by_cases hev : (enforceEvidenceSanity parsed1).verdict ≠ jsStr "FOUND"
        · simp [runHandler, h1, h2, href, h3, hev] at hcalled
        · have hv : (enforceEvidenceSanity parsed1).verdict = jsStr "FOUND" := not_not.mp hev
          have hlen := enforce_found_len parsed1 hv
          have hnn : (enforceEvidenceSanity parsed1).evidence ≠ [] :=
            List.length_pos.mp (by omega)
          cases comp with
          | failure =>
            by_cases hm : reqMode inp = jsStr "verbatim" <;>
              simp [runHandler, h1, h2, href, h3, hev, hm, minimalNotFound_verbatim, hnn]
          | success parsed2 =>
            by_cases hfb : (verifyAnswer parsed2
                (inferLangFromUserSetting (some (reqLangSetting inp)) (reqQuestion inp))).verbatim = [] <;>
              by_cases hm : reqMode inp = jsStr "verbatim" <;>
              simp [runHandler, h1, h2, href, h3, hev, hm, hfb, hnn]
  · intro inp es comp hcalled hcf
    subst hcf
    by_cases h1 : reqDrugKey inp = []
    · simp [runHandler, h1] at hcalled
    by_cases h2 : reqQuestion inp = []
    · simp [runHandler, h1, h2] at hcalled
    cases href : inp.refs (reqDrugKey inp) with
    | none => simp [runHandler, h1, h2, href] at hcalled
    | some vsId =>
      by_cases h3 : vsId = []
      · simp [runHandler, h1, h2, href, h3] at hcalled
      by_cases hev : (enforceEvidenceSanity (some es)).verdict ≠ jsStr "FOUND"
      · simp [runHandler, h1, h2, href, h3, hev] at hcalled
      · by_cases hm : reqMode inp = jsStr "verbatim" <;>
          simp [runHandler, h1, h2, href, h3, hev, hm, minimalNotFound_verbatim]
  · intro inp ext comp hef hcalled
    subst hef
    by_cases h1 : reqDrugKey inp = []
    · simp [runHandler, h1] at hcalled
    by_cases h2 : reqQuestion inp = []
    · simp [runHandler, h1, h2] at hcalled
    cases href : inp.refs (reqDrugKey inp) with
    | none => simp [runHandler, h1, h2, href] at hcalled
    | some vsId =>
      by_cases h3 : vsId = []
      · simp [runHandler, h1, h2, href, h3] at hcalled
      · simp [runHandler, h1, h2, href, h3, minimalNotFound_verbatim]

/-- C9 witness: the backfill equality at the concrete composer-failure run. -/
theorem composition_path_carries_evidence_witness :
    ∃ r, (runHandler sampleInput (.success (some sampleEvidenceSet)) .failure).response.result
        = some r ∧
      r.verbatim = (enforceEvidenceSanity (some sampleEvidenceSet)).evidence :=
  composition_path_carries_evidence.2.1 sampleInput sampleEvidenceSet .failure (by decide) rfl

/-- C2: sanitizer output invariants — FOUND implies 1..6 quotes; surviving
quotes are whitespace-normalized with length at least 8 and pairwise
distinct case-insensitively, in first-seen order (a sublist of the
normalized, length-filtered input); duplicate quotes collapse to one and a
single too-short quote forces NOT_FOUND. -/
theorem sanitizer_invariants :
    (∀ x : EvidenceSet, (enforceEvidenceSanity (some x)).verdict = jsStr "FOUND" →
      1 ≤ (enforceEvidenceSanity (some x)).evidence.length ∧
        (enforceEvidenceSanity (some x)).evidence.length ≤ 6) ∧
    (∀ (x : EvidenceSet) (e : EvidenceQuote), e ∈ (enforceEvidenceSanity (some x)).evidence →
      8 ≤ e.quote.length ∧ e.quote = normalizeSpace e.quote) ∧
    (∀ x : EvidenceSet, (enforceEvidenceSanity (some x)).evidence.Pairwise
      (fun a b => jsToLower a.quote ≠ jsToLower b.quote)) ∧
    (∀ x : EvidenceSet, List.Sublist (enforceEvidenceSanity (some x)).evidence
      ((x.evidence.map cleanQuote).filter (fun e => 8 ≤ e.quote.length))) ∧
    (enforceEvidenceSanity (some dupQuoteSet)).evidence.length = 1 ∧
    (enforceEvidenceSanity (some tinyQuoteSet)).verdict = jsStr "NOT_FOUND" := by
  refine ⟨?_, ?_, fun x => enforce_pairwise (some x), fun x => enforce_order x,
    by decide, by decide⟩
  · intro x h
    exact enforce_found_len (some x) h
  · intro x e he
    obtain ⟨h8, hcq⟩ := enforce_mem (some x) e he
    refine ⟨h8, ?_⟩
    have := congrArg EvidenceQuote.quote hcq
    simpa [cleanQuote] using this.symm

/-- C2 witness: the 1..6 bound instantiated on the duplicate-quote
scenario. -/
theorem sanitizer_invariants_witness :
    1 ≤ (enforceEvidenceSanity (some dupQuoteSet)).evidence.length ∧
      (enforceEvidenceSanity (some dupQuoteSet)).evidence.length ≤ 6 :=
  sanitizer_invariants.1 dupQuoteSet (by decide)

/-- C3: the verifier replaces a FOUND answer with empty verbatim by the
canned NOT_FOUND result, passes everything else through unchanged, and its
output satisfies FOUND implies at least one verbatim quote. -/
theorem verifier_spec :
    (∀ (p : AnswerObj) (lang : JsString), p.verdict = jsStr "FOUND" → p.verbatim = [] →
      verifyAnswer (some p) lang = minimalNotFound lang) ∧
    (∀ (p : AnswerObj) (lang : JsString), ¬ (p.verdict = jsStr "FOUND" ∧ p.verbatim = []) →
      verifyAnswer (some p) lang = p) ∧
    (∀ (o : Option AnswerObj) (lang : JsString),
      (verifyAnswer o lang).verdict = jsStr "FOUND" →
        1 ≤ (verifyAnswer o lang).verbatim.length) := by
  refine ⟨?_, ?_, ?_⟩
  · intro p lang hv hb
    simp [verifyAnswer, hv, hb]
  · intro p lang h
    simp [verifyAnswer, h]
  · intro o lang h
    have hne := verifyAnswer_found_nonempty o lang h
    cases hv : (verifyAnswer o lang).verbatim with
    | nil => exact absurd hv hne
    | cons a as => simp [hv]

/-- C3 witness: the downgrade and the invariant at concrete answers. -/
theorem verifier_spec_witness :
    verifyAnswer (some sampleUngroundedAnswer) (jsStr "en") = minimalNotFound (jsStr "en") ∧
    1 ≤ (verifyAnswer (some sampleGroundedAnswer) (jsStr "en")).verbatim.length :=
  ⟨verifier_spec.1 sampleUngroundedAnswer (jsStr "en") rfl rfl,
   verifier_spec.2.2 (some sampleGroundedAnswer) (jsStr "en") (by decide)⟩

/-- C6: the sanitizer is idempotent — sanitizing an already-sanitized
EvidenceSet changes nothing. -/
theorem sanitizer_idempotent (x : EvidenceSet) :
    enforceEvidenceSanity (some (enforceEvidenceSanity (some x)))
      = enforceEvidenceSanity (some x) :=
  enforce_idem x

/-- C7: in verbatim mode the reply is the numbered concatenation of the
result's quotes with section/page hints, ignores shortAnswer, and emits
the not-found message when there are no quotes; the single-quote scenario
renders exactly as specified. -/
theorem verbatim_mode_render :
    (∀ (lang : JsString) (r : AnswerObj) (s : JsString),
      renderReply (jsStr "verbatim") lang { r with short_answer := s }
        = renderReply (jsStr "verbatim") lang r) ∧
    (∀ (lang : JsString) (r : AnswerObj), r.verbatim ≠ [] →
      renderReply (jsStr "verbatim") lang r
        = List.intercalate (jsStr "\n\n") (r.verbatim.mapIdx fmtQuote)) ∧
    (∀ (lang : JsString) (r : AnswerObj), r.verbatim = [] →
      renderReply (jsStr "verbatim") lang r = (minimalNotFound lang).short_answer) ∧
    renderReply (jsStr "verbatim") (jsStr "en") sampleRenderResult
      = jsStr "1) Give 500mg q8h\n   [Dosing] p.4" := by
  refine ⟨?_, ?_, ?_, by decide⟩
  · intro lang r s
    simp [renderReply]
  · intro lang r h
    simp [renderReply, h]
  · intro lang r h
    simp [renderReply, h]

/-- C7 witness: the empty-quote case at a concrete result. -/
theorem verbatim_mode_render_witness :
    renderReply (jsStr "verbatim") (jsStr "en") sampleEmptyResult
      = (minimalNotFound (jsStr "en")).short_answer :=
  verbatim_mode_render.2.2.1 (jsStr "en") sampleEmptyResult rfl

/-- C8: in link mode the reply is built from the sourceHint and the first
quote only, and an empty sourceHint yields the fixed source-not-found
message regardless of verdict. -/
theorem link_mode_render :
    (∀ (lang : JsString) (r : AnswerObj), r.source_hint = [] →
      renderReply (jsStr "link") lang r
        = (if lang = jsStr "en" then jsStr "Source not found in protocol."
           else jsStr "المصدر غير موجود في البروتوكول.")) ∧
    (∀ (lang : JsString) (r : AnswerObj) (v : JsString),
      renderReply (jsStr "link") lang { r with verdict := v }
        = renderReply (jsStr "link") lang r) ∧
    (∀ (lang : JsString) (r : AnswerObj),
      renderReply (jsStr "link") lang { r with verbatim := r.verbatim.take 1 }
        = renderReply (jsStr "link") lang r) ∧
    (∀ (lang : JsString) (r : AnswerObj), r.source_hint ≠ [] →
      renderReply (jsStr "link") lang r
        = (if lang = jsStr "en"
           then jsStr "Source: " ++ r.source_hint ++ jsStr "\n\nEvidence:\n"
                  ++ firstQuoteText r.verbatim
           else jsStr "المصدر: " ++ r.source_hint ++ jsStr "\n\nالدليل:\n"
                  ++ firstQuoteText r.verbatim)) := by
  have hlv : ¬ (jsStr "link" = jsStr "verbatim") := by decide
  refine ⟨?_, ?_, ?_, ?_⟩
  · intro lang r h
    simp [renderReply, hlv, h]
  · intro lang r v
    simp [renderReply, hlv]
  · intro lang r
    have hft : firstQuoteText (r.verbatim.take 1) = firstQuoteText r.verbatim := by
      cases r.verbatim <;> rfl
    simp [renderReply, hlv, hft]
  · intro lang r h
    simp [renderReply, hlv, h]

/-- C8 witness: empty sourceHint at a concrete result, English. -/
theorem link_mode_render_witness :
    renderReply (jsStr "link") (jsStr "en") sampleEmptyResult
      = (if jsStr "en" = jsStr "en" then jsStr "Source not found in protocol."
         else jsStr "المصدر غير موجود في البروتوكول.") :=
  link_mode_render.1 (jsStr "en") sampleEmptyResult rfl

/-- C10: with setting auto (or absent) the language is "ar" exactly when
the question contains a character in U+0600..U+06FF and "en" otherwise;
any explicit non-auto setting is passed through lowercased. -/
theorem lang_selection :
    (∀ (ls : Option JsString) (q : JsString), ls = none ∨ ls = some (jsStr "auto") →
      (inferLangFromUserSetting ls q
          = if q.any (fun c => 0x600 ≤ c.toNat && c.toNat ≤ 0x6FF) then jsStr "ar"
            else jsStr "en") ∧
      (inferLangFromUserSetting ls q = jsStr "ar"
          ↔ ∃ c ∈ q, 0x600 ≤ c.toNat ∧ c.toNat ≤ 0x6FF)) ∧
    (∀ (s : JsString) (q : JsString), jsToLower s ≠ jsStr "auto" → s ≠ [] →
      inferLangFromUserSetting (some s) q = jsToLower s) := by
  constructor
  · intro ls q hls
    have h : jsToLower (jsOrOpt ls (jsStr "auto")) = jsStr "auto" := by
      rcases hls with rfl | rfl <;> decide
    have harr : inferLangFromUserSetting ls q
        = if q.any (fun c => 0x600 ≤ c.toNat && c.toNat ≤ 0x6FF) then jsStr "ar"
          else jsStr "en" := by
      simp [inferLangFromUserSetting, h]
    refine ⟨harr, ?_⟩
    rw [harr]
    by_cases ha : q.any (fun c => 0x600 ≤ c.toNat && c.toNat ≤ 0x6FF) = true
    · simp only [ha, if_pos]
      simp only [List.any_eq_true, Bool.and_eq_true, decide_eq_true_eq] at ha
      simpa using ha
    · rw [if_neg ha]
      constructor
      · intro he
        exact absurd he (by decide)
      · rintro ⟨c, hc, hlo, hhi⟩
        exact absurd (List.any_eq_true.mpr ⟨c, hc, by simp [hlo, hhi]⟩) ha
  · intro s q h hn
    have hd : jsOrOpt (some s) (jsStr "auto") = s := by
      simp [jsOrOpt, jsOrStr, hn]
    simp [inferLangFromUserSetting, hd, h]

/-- C10 witness: concrete auto-detection and passthrough runs. -/
theorem lang_selection_witness :
    ((inferLangFromUserSetting (some (jsStr "auto")) (jsStr "ما الجرعة؟")
        = if (jsStr "ما الجرعة؟").any (fun c => 0x600 ≤ c.toNat && c.toNat ≤ 0x6FF)
          then jsStr "ar" else jsStr "en") ∧
      (inferLangFromUserSetting (some (jsStr "auto")) (jsStr "ما الجرعة؟") = jsStr "ar"
        ↔ ∃ c ∈ jsStr "ما الجرعة؟", 0x600 ≤ c.toNat ∧ c.toNat ≤ 0x6FF)) ∧
    inferLangFromUserSetting (some (jsStr "EN")) (jsStr "dose?") = jsToLower (jsStr "EN") :=
  ⟨lang_selection.1 (some (jsStr "auto")) (jsStr "ما الجرعة؟") (Or.inr rfl),
   lang_selection.2 (jsStr "EN") (jsStr "dose?") (by decide) (by decide)⟩
